import Mathlib

/-!
Verification development for the DROP neural-module-network domain language
(`semqa/domain_languages/drop/drop_language.py`).

The Python source is shallowly embedded: the `Date` value class and its
comparison methods become executable Lean functions on `Int` triples; the
tensor-valued predicates (`compute_date_scores`, `expected_date_comparison`,
`compare_date_greater_than`, `compare_date_lesser_than`,
`find_passageSpanAnswer`) become functions over `Fin n → ℝ` vectors, with the
PyTorch / AllenNLP numeric primitives (`softmax`, `masked_softmax`,
`masked_log_softmax`, `replace_masked_values`, `F.kl_div`) modelled in exact
real arithmetic according to their library semantics.
-/

namespace DropNmn

open Finset

/-- `Date` (drop_language.py, lines 16-20): a triple of integers `year`,
`month`, `day`, where `-1` is the sentinel for an unknown field. -/
structure Date where
  year : Int
  month : Int
  day : Int
deriving DecidableEq

/-- The date-to-date branch of `Date.__eq__` (lines 28-31): field-wise
equality where an unknown (`-1`) field on either side matches anything. -/
def dateEq (a b : Date) : Bool :=
  let year_is_same := a.year = -1 ∨ b.year = -1 ∨ a.year = b.year
  let month_is_same := a.month = -1 ∨ b.month = -1 ∨ a.month = b.month
  let day_is_same := a.day = -1 ∨ b.day = -1 ∨ a.day = b.day
  decide (year_is_same ∧ month_is_same ∧ day_is_same)

/-- The date-to-date branch of `Date.__gt__` (lines 44-72): compare year,
then month, then day, short-circuiting at the first difference; exactly one
year unknown penalizes the unknown side; an unknown month/day on the left
(or on both sides) makes the comparison undefined (`False`). -/
def dateGt (a b : Date) : Bool :=
  -- "We're doing an exclusive or below" (line 45)
  if decide (a.year = -1) ≠ decide (b.year = -1) then
    -- Penalize the underspecified date (lines 46-50)
    if a.year = -1 then false else true
  else if a.year ≠ b.year then decide (a.year > b.year)
  else if a.month = -1 ∧ b.month = -1 then false
  else if a.month = -1 then false
  else if b.month = -1 then true
  else if a.month ≠ b.month then decide (a.month > b.month)
  else if a.day = -1 ∧ b.day = -1 then false
  else if a.day = -1 then false
  else if b.day = -1 then true
  else decide (a.day > b.day)

/-- The date-to-date branch of `Date.__ge__` (line 77):
`self > other or self == other`. -/
def dateGe (a b : Date) : Bool :=
  dateGt a b || dateEq a b

/-- A dynamically-typed Python value as seen by the `Date` comparison
methods: either a `Date` or some other (non-`Date`) object, which we only
need to distinguish, not inspect. -/
inductive PyVal where
  | date (d : Date)
  | nonDate (repr : String)

/-- The message of the `ExecutionError` raised by all three comparison
methods on a non-`Date` operand (lines 27, 43, 76). -/
def dateTypeErrorMsg : String := "Can only compare Dates with Dates"

/-- `Date.__eq__` (lines 22-31) with its `isinstance` guard: raises
`ExecutionError` (modelled as `Except.error`) on a non-`Date` operand. -/
def dateEqChecked (a : Date) (other : PyVal) : Except String Bool :=
  match other with
  | .date b => .ok (dateEq a b)
  | .nonDate _ => .error dateTypeErrorMsg

/-- `Date.__gt__` (lines 33-72) with its `isinstance` guard. -/
def dateGtChecked (a : Date) (other : PyVal) : Except String Bool :=
  match other with
  | .date b => .ok (dateGt a b)
  | .nonDate _ => .error dateTypeErrorMsg

/-- `Date.__ge__` (lines 74-77) with its `isinstance` guard. -/
def dateGeChecked (a : Date) (other : PyVal) : Except String Bool :=
  match other with
  | .date b => .ok (dateGe a b)
  | .nonDate _ => .error dateTypeErrorMsg

/-- Entry `[i][j]` of `date_gt_mat` built by
`compute_date_comparison_matrices` (lines 310-323):
`1.0 if date_values[i] > date_values[j] else 0.0`. -/
def date_gt_mat (dates : List Date) (i j : Fin dates.length) : ℝ :=
  if dateGt (dates.get i) (dates.get j) then 1 else 0

/-- Entry `[i][j]` of `date_lt_mat` (line 318):
`1.0 if date_values[i] < date_values[j] else 0.0`. `Date` defines no
`__lt__` (and no `total_ordering` decorator is applied), so Python resolves
`date_values[i] < date_values[j]` through the reflected operation
`date_values[j].__gt__(date_values[i])`. -/
def date_lt_mat (dates : List Date) (i j : Fin dates.length) : ℝ :=
  if dateGt (dates.get j) (dates.get i) then 1 else 0

/-! ### Tensor primitives (PyTorch / AllenNLP semantics in exact reals) -/

/-- `torch.nn.functional.softmax` over a length-`n` vector:
`exp (v i) / ∑ j, exp (v j)` (torch's max-subtraction is a numerical detail
that does not change the exact value). -/
noncomputable def softmax {n : ℕ} (v : Fin n → ℝ) : Fin n → ℝ :=
  fun i => Real.exp (v i) / ∑ j, Real.exp (v j)

/-- `allennlp.nn.util.masked_softmax` with `memory_efficient=True` and the
default `mask_fill_value=-1e32`: positions with mask off are filled with
`-1e32`, then a regular softmax is taken. -/
noncomputable def maskedSoftmax {n : ℕ} (v : Fin n → ℝ) (m : Fin n → Bool) : Fin n → ℝ :=
  softmax (fun i => if m i then v i else -1e32)

/-- `torch.nn.functional.log_softmax`. -/
noncomputable def logSoftmax {n : ℕ} (v : Fin n → ℝ) : Fin n → ℝ :=
  fun i => v i - Real.log (∑ j, Real.exp (v j))

/-- `allennlp.nn.util.masked_log_softmax`: adds `(mask + 1e-45).log()` to
the vector and then takes a regular `log_softmax`. -/
noncomputable def maskedLogSoftmax {n : ℕ} (v : Fin n → ℝ) (m : Fin n → Bool) : Fin n → ℝ :=
  logSoftmax (fun i => v i + Real.log ((if m i then 1 else 0) + 1e-45))

/-- `allennlp.nn.util.replace_masked_values`: keep the entry where the mask
is on, replace it with `r` where the mask is off. -/
def replaceMaskedValues {n : ℕ} (v : Fin n → ℝ) (m : Fin n → Bool) (r : ℝ) : Fin n → ℝ :=
  fun i => if m i then v i else r

/-- `torch.nn.functional.kl_div(input, target, reduction='mean')` on
length-`D` tensors: the element-wise `target * (log target - input)`
(torch zeroes the entry where `target = 0`; the formula below gives the
same since the factor `target i` is then `0`), summed and divided by the
element count `D`. Torch interprets `input` as log-probabilities; the
callers in drop_language.py pass plain probability distributions. -/
noncomputable def klDiv {D : ℕ} (input target : Fin D → ℝ) : ℝ :=
  (∑ i, target i * (Real.log (target i) - input i)) / D

/-! ### DropLanguage instance state and date predicates -/

/-- The per-instance `DropLanguage` state used by the date predicates
(lines 214-259): the passage validity mask, the token-index→date-index map
(`-1` = token is not a date), the `D = num_passage_dates` unique passage
date values (`passage_date_values`, stored here as a function from `Fin D`),
and the precomputed `passage_passage_token2date_similarity` matrix, which
`initialize()` builds from the learned `ExecutorParameters` (an external
collaborator), so here it is arbitrary instance data. -/
structure DropState (n D : ℕ) where
  passage_mask : Fin n → Bool
  passage_tokenidx2dateidx : Fin n → ℤ
  passage_date_values : Fin D → Date
  token2date_sim : Fin n → Fin n → ℝ

/-- The float passage mask (0.0/1.0) as it multiplies attention vectors. -/
def DropState.maskR {n D : ℕ} (st : DropState n D) (i : Fin n) : ℝ :=
  if st.passage_mask i then 1 else 0

/-- `self.date_gt_mat` as built by `compute_date_comparison_matrices`
(lines 310-323) from the instance's `passage_date_values`:
`1.0 if date_values[i] > date_values[j] else 0.0`. -/
def DropState.gtMat {n D : ℕ} (st : DropState n D) (i j : Fin D) : ℝ :=
  if dateGt (st.passage_date_values i) (st.passage_date_values j) then 1 else 0

/-- `self.date_lt_mat` (line 318): `date_values[i] < date_values[j]`, which
Python resolves through the reflected `date_values[j].__gt__(date_values[i])`
because `Date` defines no `__lt__`. -/
def DropState.ltMat {n D : ℕ} (st : DropState n D) (i j : Fin D) : ℝ :=
  if dateGt (st.passage_date_values j) (st.passage_date_values i) then 1 else 0

/-- `compute_date_scores` (lines 351-404): weight each row `i` of the
token→date similarity by `passage_attention[i]`, sum over rows to get a
per-token date-token score, masked-softmax those scores over the tokens
that are dates (`tokenidx2dateidx > -1`), and `scatter_add_` the resulting
per-token probabilities into buckets indexed by
`mask.long() * tokenidx2dateidx` (so every non-date token is routed to
bucket `0`). Returns the `date_distribution` tensor; the second return
value `date_scores` of the source is the very same tensor, and the unused
intermediate `masked_passage_datetoken_scores` (line 380) is dropped.
Indices `≥ D` would make torch's `scatter_add_` raise; they are excluded by
the instance invariant (every non-sentinel index is valid) whenever `D ≥ 1`,
and the model ignores such contributions. -/
noncomputable def compute_date_scores {n D : ℕ} (st : DropState n D)
    (passage_attention : Fin n → ℝ) : Fin D → ℝ :=
  let passage_passage_tokendate_attention :=
    fun (i j : Fin n) => st.token2date_sim i j * passage_attention i
  let passage_datetoken_attention :=
    fun j => ∑ i, passage_passage_tokendate_attention i j
  let passage_tokenidx2dateidx_mask :=
    fun j => decide (st.passage_tokenidx2dateidx j > -1)
  let masked_passage_tokenidx2dateidx :=
    fun j => if passage_tokenidx2dateidx_mask j then (st.passage_tokenidx2dateidx j).toNat else 0
  let masked_passage_datetoken_probs :=
    maskedSoftmax passage_datetoken_attention passage_tokenidx2dateidx_mask
  fun d => ∑ j, if masked_passage_tokenidx2dateidx j = d.val then masked_passage_datetoken_probs j else 0

/-- The two comparison modes accepted by `expected_date_comparison`; any
other string makes the source raise `NotImplementedError` (line 423), so
the embedding restricts the argument to these two. -/
inductive Comparison where
  | greater
  | lesser

/-- `expected_date_comparison` (lines 407-430): the outer product
`joint_dist = d1 ⊗ d2` (a column matrix times a row matrix), element-wise
multiplied with the precomputed boolean comparison matrix and summed. -/
noncomputable def expected_date_comparison {n D : ℕ} (st : DropState n D)
    (date_distribution_1 date_distribution_2 : Fin D → ℝ)
    (comparison : Comparison) : ℝ :=
  let joint_dist := fun i j => date_distribution_1 i * date_distribution_2 j
  match comparison with
  | .greater => ∑ i, ∑ j, st.gtMat i j * joint_dist i j
  | .lesser => ∑ i, ∑ j, st.ltMat i j * joint_dist i j

/-- `PassageAttention_answer` (lines 139-142): an attention payload plus an
accumulated scalar loss. -/
structure PassageAttentionAnswer (n : ℕ) where
  value : Fin n → ℝ
  loss : ℝ

/-- `compare_date_greater_than` (lines 432-473). -/
noncomputable def compare_date_greater_than {n D : ℕ} (st : DropState n D)
    (passage_attn_1 passage_attn_2 : Fin n → ℝ) : PassageAttentionAnswer n :=
  let passage_attention_1 := fun i => passage_attn_1 i * st.maskR i
  let passage_attention_2 := fun i => passage_attn_2 i * st.maskR i
  let date_distribution_1 := compute_date_scores st passage_attention_1
  let date_distribution_2 := compute_date_scores st passage_attention_2
  let kl_div_neg_1_2 := -1 * klDiv date_distribution_1 date_distribution_2
  let kl_div_neg_2_1 := -1 * klDiv date_distribution_2 date_distribution_1
  let dist1_entropy := -1 * ∑ d, date_distribution_1 d * Real.log (date_distribution_1 d + 1e-40)
  let dist2_entropy := -1 * ∑ d, date_distribution_2 d * Real.log (date_distribution_2 d + 1e-40)
  let prob_date1_greater :=
    expected_date_comparison st date_distribution_1 date_distribution_2 .greater
  let average_passage_distribution :=
    fun i => prob_date1_greater * passage_attention_1 i
      + (1 - prob_date1_greater) * passage_attention_2 i
  let loss := dist1_entropy + dist2_entropy + kl_div_neg_1_2 + kl_div_neg_2_1
  ⟨average_passage_distribution, loss⟩

/-- `compare_date_lesser_than` (lines 493-521). Note the source evaluates
`expected_date_comparison(..., comparison="lesser")` — i.e. `P(date1<date2)`
— into a variable named `prob_date1_greater`, and then still takes
`prob_date1_lesser = 1 - prob_date1_greater`. -/
noncomputable def compare_date_lesser_than {n D : ℕ} (st : DropState n D)
    (passage_attn_1 passage_attn_2 : Fin n → ℝ) : PassageAttentionAnswer n :=
  let passage_attention_1 := fun i => passage_attn_1 i * st.maskR i
  let passage_attention_2 := fun i => passage_attn_2 i * st.maskR i
  let date_distribution_1 := compute_date_scores st passage_attention_1
  let date_distribution_2 := compute_date_scores st passage_attention_2
  let kl_div_neg_1_2 := -1 * klDiv date_distribution_1 date_distribution_2
  let kl_div_neg_2_1 := -1 * klDiv date_distribution_2 date_distribution_1
  let dist1_entropy := -1 * ∑ d, date_distribution_1 d * Real.log (date_distribution_1 d + 1e-40)
  let dist2_entropy := -1 * ∑ d, date_distribution_2 d * Real.log (date_distribution_2 d + 1e-40)
  let loss := dist1_entropy + dist2_entropy + kl_div_neg_1_2 + kl_div_neg_2_1
  let prob_date1_greater :=
    expected_date_comparison st date_distribution_1 date_distribution_2 .lesser
  let prob_date1_lesser := 1 - prob_date1_greater
  let average_passage_distribution :=
    fun i => prob_date1_lesser * passage_attention_1 i
      + (1 - prob_date1_lesser) * passage_attention_2 i
  ⟨average_passage_distribution, loss⟩

/-- The date distribution computed from a mask-multiplied input attention,
as both comparison predicates do on entry (lines 439-443 and 498-502). -/
noncomputable def maskedDateDist {n D : ℕ} (st : DropState n D)
    (attn : Fin n → ℝ) : Fin D → ℝ :=
  compute_date_scores st (fun i => attn i * st.maskR i)

/-- The blending weight `compare_date_greater_than` places on its first
(masked) input attention: the variable `prob_date1_greater` of
lines 454-458. -/
noncomputable def greaterWeightOnAttn1 {n D : ℕ} (st : DropState n D)
    (attn1 attn2 : Fin n → ℝ) : ℝ :=
  expected_date_comparison st (maskedDateDist st attn1) (maskedDateDist st attn2) .greater

/-- The blending weight `compare_date_lesser_than` places on its first
(masked) input attention: the variable `prob_date1_lesser` of
lines 513-518, i.e. `1 - expected_date_comparison(d1, d2, "lesser")`. -/
noncomputable def lesserWeightOnAttn1 {n D : ℕ} (st : DropState n D)
    (attn1 attn2 : Fin n → ℝ) : ℝ :=
  1 - expected_date_comparison st (maskedDateDist st attn1) (maskedDateDist st attn2) .lesser

/-! ### Span decoding -/

/-- `PassageSpanAnswer` (lines 103-114): the two log-probability sequences
(`_value`), the two sanitized logit sequences, and the threaded loss. -/
structure PassageSpanAnswer (n : ℕ) where
  start_log_probs : Fin n → ℝ
  end_log_probs : Fin n → ℝ
  start_logits : Fin n → ℝ
  end_logits : Fin n → ℝ
  loss : ℝ

/-- The learned middle of `find_passageSpanAnswer` (lines 534-547): the
rescaling by `passage_attention_scalingvals`, the feature stacking, the
`passage_attention_to_span` encoder and the 2-output
`passage_startend_predictor`, taken together as one function from the
masked attention to the raw (start, end) logit vectors. All of these live
in `ExecutorParameters`, an external collaborator, so the composite is
modelled as instance data. -/
structure SpanPredictor (n : ℕ) where
  spanLogits : (Fin n → ℝ) → (Fin n → ℝ) × (Fin n → ℝ)

/-- `find_passageSpanAnswer` (lines 525-566): mask the input attention,
produce raw start/end logits through the learned span predictor, replace
the logits at masked positions with `-1e32`, take a masked log-softmax,
and independently replace the resulting log-probabilities at masked
positions with `-1e32` again. -/
noncomputable def find_passageSpanAnswer {n D : ℕ} (st : DropState n D)
    (params : SpanPredictor n) (passage_attention : PassageAttentionAnswer n) :
    PassageSpanAnswer n :=
  let passage_attn := fun i => passage_attention.value i * st.maskR i
  let raw := params.spanLogits passage_attn
  let span_start_logits := replaceMaskedValues raw.1 st.passage_mask (-1e32)
  let span_end_logits := replaceMaskedValues raw.2 st.passage_mask (-1e32)
  let span_start_log_probs := maskedLogSoftmax span_start_logits st.passage_mask
  let span_end_log_probs := maskedLogSoftmax span_end_logits st.passage_mask
  let span_start_log_probs := replaceMaskedValues span_start_log_probs st.passage_mask (-1e32)
  let span_end_log_probs := replaceMaskedValues span_end_log_probs st.passage_mask (-1e32)
  ⟨span_start_log_probs, span_end_log_probs, span_start_logits, span_end_logits,
    passage_attention.loss⟩

/-! ### Concrete instances used by witnesses and counterexamples -/

/-- A concrete two-token, two-date instance: both tokens valid, token `0`
names `Date(2002,1,1)` (date index 0), token `1` names `Date(2001,1,1)`
(date index 1), with a diagonal token→date similarity of `1/2` (inside
`tanh`'s range, so reachable by `compute_passage_token2date_similarity`). -/
noncomputable def exState : DropState 2 2 where
  passage_mask := fun _ => true
  passage_tokenidx2dateidx := ![0, 1]
  passage_date_values := ![⟨2002, 1, 1⟩, ⟨2001, 1, 1⟩]
  token2date_sim := fun i j => if i = j then 1 / 2 else 0

/-- A passage attention concentrated on token 0 (the 2002 date). -/
noncomputable def exAttn1 : Fin 2 → ℝ := ![1, 0]

/-- A passage attention concentrated on token 1 (the 2001 date). -/
noncomputable def exAttn2 : Fin 2 → ℝ := ![0, 1]

/-- A one-token, one-date instance in which the single token is NOT a date
token (`tokenidx2dateidx = -1` everywhere) while the unique-date list is
nonempty. -/
noncomputable def exStateNoDateToken : DropState 1 1 where
  passage_mask := fun _ => true
  passage_tokenidx2dateidx := ![-1]
  passage_date_values := ![⟨2002, 1, 1⟩]
  token2date_sim := fun _ _ => 0

/-- A two-token instance whose passage mask is off everywhere. -/
noncomputable def exMaskedState : DropState 2 1 where
  passage_mask := fun _ => false
  passage_tokenidx2dateidx := ![-1, -1]
  passage_date_values := ![⟨2000, 1, 1⟩]
  token2date_sim := fun _ _ => 0

/-- A concrete learned span predictor producing constant raw logits. -/
noncomputable def exSpanPredictor : SpanPredictor 2 :=
  ⟨fun _ => (fun _ => 7, fun _ => 3)⟩

/-- A branch-free propositional characterization of `dateGt`, used to drive
`omega` in the order-theoretic proofs below. -/
def gtProp (a b : Date) : Prop :=
  (¬(a.year = -1 ↔ b.year = -1) ∧ a.year ≠ -1)
  ∨ ((a.year = -1 ↔ b.year = -1) ∧ a.year ≠ b.year ∧ a.year > b.year)
  ∨ ((a.year = -1 ↔ b.year = -1) ∧ a.year = b.year ∧
      ((a.month ≠ -1 ∧ b.month = -1)
       ∨ (a.month ≠ -1 ∧ b.month ≠ -1 ∧ a.month ≠ b.month ∧ a.month > b.month)
       ∨ (a.month ≠ -1 ∧ b.month ≠ -1 ∧ a.month = b.month ∧
           ((a.day ≠ -1 ∧ b.day = -1)
            ∨ (a.day ≠ -1 ∧ b.day ≠ -1 ∧ a.day > b.day)))))

/-- Helper: `dateGt` returns `true` exactly on `gtProp`. -/
theorem dateGt_iff (a b : Date) : dateGt a b = true ↔ gtProp a b := by
  unfold dateGt gtProp
  split_ifs <;> simp_all

/-- Helper: `dateGt` returns `false` exactly off `gtProp`. -/
theorem dateGt_eq_false_iff (a b : Date) : dateGt a b = false ↔ ¬ gtProp a b := by
  rw [← Bool.not_eq_true, dateGt_iff]

/-- Helper: comparing `dateGt` against a `decide`d proposition. -/
theorem dateGt_eq_decide_iff (a b : Date) (p : Prop) [Decidable p] :
    dateGt a b = decide p ↔ (gtProp a b ↔ p) := by
  rw [Bool.eq_iff_iff, dateGt_iff, decide_eq_true_eq]

/-- Helper: `__gt__` is irreflexive — a date never compares greater than
itself (every branch of lines 44-72 returns `False` when both sides are the
same triple). -/
theorem dateGt_irrefl (a : Date) : dateGt a a = false := by
  have h2 : ¬ gtProp a a := by unfold gtProp; omega
  rw [← Bool.not_eq_true, dateGt_iff]
  exact h2

/-- Helper: `__gt__` is asymmetric on every pair of dates. -/
theorem dateGt_asymm_aux (a b : Date) : dateGt a b = true → dateGt b a = false := by
  intro h
  rw [dateGt_iff] at h
  have h2 : ¬ gtProp b a := by unfold gtProp at *; omega
  rw [← Bool.not_eq_true, dateGt_iff]
  exact h2

/-- C5: `Date` equality is field-wise with the unknown sentinel (`-1`)
matching anything, and is consequently non-transitive:
`Date(2018,-1,-1) == Date(2018,2,3)` and `Date(2018,-1,-1) == Date(2018,4,5)`
but `Date(2018,2,3) != Date(2018,4,5)`. -/
theorem date_eq_fieldwise_non_transitive :
    (∀ a b : Date, dateEq a b = true ↔
      ((a.year = -1 ∨ b.year = -1 ∨ a.year = b.year) ∧
       (a.month = -1 ∨ b.month = -1 ∨ a.month = b.month) ∧
       (a.day = -1 ∨ b.day = -1 ∨ a.day = b.day))) ∧
    dateEq ⟨2018, -1, -1⟩ ⟨2018, 2, 3⟩ = true ∧
    dateEq ⟨2018, -1, -1⟩ ⟨2018, 4, 5⟩ = true ∧
    dateEq ⟨2018, 2, 3⟩ ⟨2018, 4, 5⟩ = false := by
  refine ⟨fun a b => ?_, by decide, by decide, by decide⟩
  unfold dateEq
  simp

/-- C6: the `Date` ordering `__gt__` is asymmetric: for every pair of dates
(with any combination of unknown `-1` fields), `a > b` and `b > a` are never
both true. -/
theorem date_gt_asymmetric (a b : Date) : (dateGt a b && dateGt b a) = false := by
  cases h : dateGt a b with
  | false => simp
  | true => simp [dateGt_asymm_aux a b h]

/-- C7: `Date.__gt__` compares year, then month, then day, short-circuiting
at the first difference; exactly one unknown year penalizes the unknown side;
both compared fields unknown gives `False` rather than an error; and
`Date(2020,1,1) > Date(2019,1,1)` while `¬(Date(2020,-1,1) > Date(2020,6,1))`. -/
theorem date_gt_ordering_spec :
    (∀ a b : Date, a.year = -1 → b.year ≠ -1 → dateGt a b = false) ∧
    (∀ a b : Date, a.year ≠ -1 → b.year = -1 → dateGt a b = true) ∧
    (∀ a b : Date, a.year ≠ -1 → b.year ≠ -1 → a.year ≠ b.year →
      dateGt a b = decide (a.year > b.year)) ∧
    (∀ a b : Date, a.year = b.year → a.month = -1 → b.month = -1 →
      dateGt a b = false) ∧
    (∀ a b : Date, a.year = b.year → a.month ≠ -1 → b.month ≠ -1 →
      a.month ≠ b.month → dateGt a b = decide (a.month > b.month)) ∧
    (∀ a b : Date, a.year = b.year → a.month = b.month → a.month ≠ -1 →
      a.day = -1 → b.day = -1 → dateGt a b = false) ∧
    (∀ a b : Date, a.year = b.year → a.month = b.month → a.month ≠ -1 →
      a.day ≠ -1 → b.day ≠ -1 → dateGt a b = decide (a.day > b.day)) ∧
    dateGt ⟨2020, 1, 1⟩ ⟨2019, 1, 1⟩ = true ∧
    dateGt ⟨2020, -1, 1⟩ ⟨2020, 6, 1⟩ = false := by
  refine ⟨?_, ?_, ?_, ?_, ?_, ?_, ?_, by decide, by decide⟩ <;>
    intro a b <;> intros <;>
    first
      | (rw [dateGt_eq_false_iff]; unfold gtProp; omega)
      | (rw [dateGt_eq_decide_iff]; unfold gtProp; omega)
      | (rw [dateGt_iff]; unfold gtProp; omega)

/-- Witness for C7 at concrete inputs: unknown year penalized in both
directions, both-months-unknown and both-days-unknown comparisons are
`False`, and the two concrete examples from the claim. -/
theorem date_gt_ordering_spec_witness :
    dateGt ⟨-1, 5, 5⟩ ⟨2000, 1, 1⟩ = false ∧
    dateGt ⟨2000, 1, 1⟩ ⟨-1, 5, 5⟩ = true ∧
    dateGt ⟨2001, 3, 4⟩ ⟨2000, 9, 9⟩ = decide ((2001 : ℤ) > 2000) ∧
    dateGt ⟨2000, -1, 4⟩ ⟨2000, -1, 9⟩ = false ∧
    dateGt ⟨2000, 3, 4⟩ ⟨2000, 7, 9⟩ = decide ((3 : ℤ) > 7) ∧
    dateGt ⟨2000, 3, -1⟩ ⟨2000, 3, -1⟩ = false ∧
    dateGt ⟨2000, 3, 4⟩ ⟨2000, 3, 9⟩ = decide ((4 : ℤ) > 9) ∧
    dateGt ⟨2020, 1, 1⟩ ⟨2019, 1, 1⟩ = true ∧
    dateGt ⟨2020, -1, 1⟩ ⟨2020, 6, 1⟩ = false := by
  obtain ⟨h1, h2, h3, h4, h5, h6, h7, h8, h9⟩ := date_gt_ordering_spec
  exact ⟨h1 ⟨-1, 5, 5⟩ ⟨2000, 1, 1⟩ (by decide) (by decide),
         h2 ⟨2000, 1, 1⟩ ⟨-1, 5, 5⟩ (by decide) (by decide),
         h3 ⟨2001, 3, 4⟩ ⟨2000, 9, 9⟩ (by decide) (by decide) (by decide),
         h4 ⟨2000, -1, 4⟩ ⟨2000, -1, 9⟩ (by decide) (by decide) (by decide),
         h5 ⟨2000, 3, 4⟩ ⟨2000, 7, 9⟩ (by decide) (by decide) (by decide) (by decide),
         h6 ⟨2000, 3, -1⟩ ⟨2000, 3, -1⟩ (by decide) (by decide) (by decide) (by decide) (by decide),
         h7 ⟨2000, 3, 4⟩ ⟨2000, 3, 9⟩ (by decide) (by decide) (by decide) (by decide) (by decide),
         h8, h9⟩

/-- C9: comparing a `Date` with a non-`Date` value via `==`, `>` or `>=`
always raises `ExecutionError "Can only compare Dates with Dates"` (modelled
as `Except.error`), never silently coercing; comparing two `Date`s never
raises. -/
theorem date_compare_type_error :
    (∀ (a : Date) (s : String),
      dateEqChecked a (.nonDate s) = .error dateTypeErrorMsg ∧
      dateGtChecked a (.nonDate s) = .error dateTypeErrorMsg ∧
      dateGeChecked a (.nonDate s) = .error dateTypeErrorMsg) ∧
    (∀ a b : Date,
      dateEqChecked a (.date b) = .ok (dateEq a b) ∧
      dateGtChecked a (.date b) = .ok (dateGt a b) ∧
      dateGeChecked a (.date b) = .ok (dateGe a b)) := by
  exact ⟨fun a s => ⟨rfl, rfl, rfl⟩, fun a b => ⟨rfl, rfl, rfl⟩⟩

/-- C10: `compute_date_comparison_matrices` returns a `date_lt_mat` that is
exactly the transpose of `date_gt_mat` (Python evaluates
`date_values[i] < date_values[j]` through the reflected
`date_values[j].__gt__(date_values[i])` since `Date` defines no `__lt__`),
and both matrices have an all-zero diagonal. -/
theorem date_lt_mat_transpose_gt_mat (dates : List Date) (i j : Fin dates.length) :
    date_lt_mat dates i j = date_gt_mat dates j i ∧
    date_gt_mat dates i i = 0 ∧
    date_lt_mat dates i i = 0 := by
  refine ⟨rfl, ?_, ?_⟩ <;> simp [date_gt_mat, date_lt_mat, dateGt_irrefl]

/-- Helper: a softmax over a nonempty vector sums to exactly 1. -/
theorem softmax_sum_eq_one {n : ℕ} (hn : 0 < n) (v : Fin n → ℝ) :
    ∑ i, softmax v i = 1 := by
  unfold softmax
  rw [← Finset.sum_div]
  have hpos : 0 < ∑ j, Real.exp (v j) :=
    Finset.sum_pos (fun j _ => Real.exp_pos _) ⟨⟨0, hn⟩, Finset.mem_univ _⟩
  field_simp

/-- Helper: summing a one-bucket scatter over all buckets recovers the
scattered value, provided the target index is in range. -/
theorem sum_scatter_eq {D : ℕ} (k : ℕ) (hk : k < D) (x : ℝ) :
    (∑ d : Fin D, if k = (d : ℕ) then x else 0) = x := by
  have hiff : ∀ d : Fin D, ((⟨k, hk⟩ : Fin D) = d) ↔ k = (d : ℕ) :=
    fun d => ⟨fun h => h ▸ rfl, fun h => Fin.ext h⟩
  rw [Finset.sum_congr rfl (fun d _ => if_congr ((hiff d).symm) rfl rfl),
    Finset.sum_ite_eq]
  simp

/-- C2 (amended): with every non-sentinel token→date index valid, the date
distribution sums to 1 whenever some token maps to a date (with nonzero
similarity mass); when no token maps to any date, the memory-efficient
masked softmax still normalizes and all of its mass is scattered into
bucket 0, so the distribution is one-hot on date index 0 (and all-zero only
in the vacuous case `D = 0`). -/
theorem compute_date_scores_normalization {n D : ℕ} (st : DropState n D)
    (attn : Fin n → ℝ)
    (hIdx : ∀ j, st.passage_tokenidx2dateidx j > -1 →
      (st.passage_tokenidx2dateidx j).toNat < D) :
    ((∃ j, st.passage_tokenidx2dateidx j > -1 ∧
        (∑ i, st.token2date_sim i j * attn i) ≠ 0) →
      ∑ d, compute_date_scores st attn d = 1) ∧
    (0 < n → (∀ j, ¬ st.passage_tokenidx2dateidx j > -1) →
      ∀ d : Fin D, compute_date_scores st attn d = if (d : ℕ) = 0 then 1 else 0) := by
  constructor
  · rintro ⟨j0, hj0, -⟩
    have hn : 0 < n := j0.pos
    have hD : 0 < D := lt_of_le_of_lt (Nat.zero_le _) (hIdx j0 hj0)
    simp only [compute_date_scores]
    rw [Finset.sum_comm]
    rw [Finset.sum_congr rfl (fun j _ => sum_scatter_eq _ ?_ _)]
    · exact softmax_sum_eq_one hn _
    · by_cases hj : st.passage_tokenidx2dateidx j > -1
      · simpa [hj] using hIdx j hj
      · simpa [hj] using hD
  · intro hn hnone d
    have hmask : ∀ j : Fin n,
        decide (st.passage_tokenidx2dateidx j > -1) = false :=
      fun j => decide_eq_false (hnone j)
    simp only [compute_date_scores, hmask, Bool.false_eq_true, if_false]
    by_cases hd : (d : ℕ) = 0
    · simp [hd, maskedSoftmax, softmax_sum_eq_one hn]
    · have hd2 : (0 : ℕ) ≠ (d : ℕ) := fun h => hd h.symm
      simp [hd, hd2]

/-- C2 counterexample to the claim as stated: an instance whose unique-date
list is nonempty but in which no passage token maps to any date. The
returned distribution is not all zero — the softmax mass all lands in date
bucket 0. -/
theorem compute_date_scores_no_date_token_counterexample :
    exStateNoDateToken.passage_tokenidx2dateidx 0 = -1 ∧
    compute_date_scores exStateNoDateToken (fun _ => 1) ⟨0, Nat.one_pos⟩ = 1 := by
  constructor
  · decide
  · simp only [compute_date_scores, maskedSoftmax, softmax, exStateNoDateToken]
    norm_num [Fin.sum_univ_one, Real.exp_ne_zero]

/-- C2 witness: on the two-date instance, with token 0 mapping to date 0
with similarity mass 1/2 under the attention `[1, 0]`, the date distribution
sums to 1. -/
theorem compute_date_scores_normalization_witness :
    ∑ d, compute_date_scores exState exAttn1 d = 1 := by
  refine (compute_date_scores_normalization exState exAttn1 (by decide)).1 ⟨0, by decide, ?_⟩
  norm_num [exState, exAttn1, Fin.sum_univ_two]

/-- C3: in both `compare_date_greater_than` and `compare_date_lesser_than`,
the loss on the output equals the entropy of `dist1` plus the entropy of
`dist2` (each `−Σ d·log(d + 1e-40)`, floored before the logarithm), plus
the negated `F.kl_div(dist1, dist2)` and the negated `F.kl_div(dist2, dist1)`
(torch's `kl_div` with `reduction='mean'`, which reads its first argument as
log-probabilities even though plain distributions are passed). -/
theorem compare_date_loss_formula {n D : ℕ} (st : DropState n D)
    (a1 a2 : Fin n → ℝ) :
    (compare_date_greater_than st a1 a2).loss =
      (-1 * ∑ d, maskedDateDist st a1 d * Real.log (maskedDateDist st a1 d + 1e-40))
      + (-1 * ∑ d, maskedDateDist st a2 d * Real.log (maskedDateDist st a2 d + 1e-40))
      + (-1 * klDiv (maskedDateDist st a1) (maskedDateDist st a2))
      + (-1 * klDiv (maskedDateDist st a2) (maskedDateDist st a1)) ∧
    (compare_date_lesser_than st a1 a2).loss =
      (-1 * ∑ d, maskedDateDist st a1 d * Real.log (maskedDateDist st a1 d + 1e-40))
      + (-1 * ∑ d, maskedDateDist st a2 d * Real.log (maskedDateDist st a2 d + 1e-40))
      + (-1 * klDiv (maskedDateDist st a1) (maskedDateDist st a2))
      + (-1 * klDiv (maskedDateDist st a2) (maskedDateDist st a1)) :=
  ⟨rfl, rfl⟩

/-- C4: `compare_date_greater_than` masks both inputs by the passage mask,
computes the date distributions `d1`, `d2` of the masked attentions, and
blends the masked attentions with weights `p` and `1 - p`, where
`p = Σᵢⱼ gt[i][j]·d1[i]·d2[j]` is the expectation of the boolean "greater"
matrix under the outer-product joint distribution. -/
theorem compare_date_greater_than_spec {n D : ℕ} (st : DropState n D)
    (a1 a2 : Fin n → ℝ) :
    (compare_date_greater_than st a1 a2).value = fun i =>
      (∑ k, ∑ l, st.gtMat k l * (maskedDateDist st a1 k * maskedDateDist st a2 l))
        * (a1 i * st.maskR i)
      + (1 - ∑ k, ∑ l, st.gtMat k l * (maskedDateDist st a1 k * maskedDateDist st a2 l))
        * (a2 i * st.maskR i) :=
  rfl

/-- C8: `find_passageSpanAnswer` replaces start/end logits at masked
positions with `-1e32` before log-softmax and independently replaces the
log-probabilities at masked positions with `-1e32` after log-softmax, so a
masked position carries the sentinel in all four returned sequences and its
probability mass is at most `exp (-1e32)` (which underflows to zero in any
floating-point format); in particular, for an all-masked passage every
returned start and end log-probability equals `-1e32`. -/
theorem find_passageSpanAnswer_masking {n D : ℕ} (st : DropState n D)
    (params : SpanPredictor n) (pa : PassageAttentionAnswer n) :
    (∀ i, st.passage_mask i = false →
      (find_passageSpanAnswer st params pa).start_logits i = -1e32 ∧
      (find_passageSpanAnswer st params pa).end_logits i = -1e32 ∧
      (find_passageSpanAnswer st params pa).start_log_probs i = -1e32 ∧
      (find_passageSpanAnswer st params pa).end_log_probs i = -1e32 ∧
      Real.exp ((find_passageSpanAnswer st params pa).start_log_probs i)
        ≤ Real.exp (-1e32) ∧
      Real.exp ((find_passageSpanAnswer st params pa).end_log_probs i)
        ≤ Real.exp (-1e32)) ∧
    ((∀ i, st.passage_mask i = false) → ∀ i,
      (find_passageSpanAnswer st params pa).start_log_probs i = -1e32 ∧
      (find_passageSpanAnswer st params pa).end_log_probs i = -1e32) := by
  have key : ∀ i, st.passage_mask i = false →
      (find_passageSpanAnswer st params pa).start_logits i = -1e32 ∧
      (find_passageSpanAnswer st params pa).end_logits i = -1e32 ∧
      (find_passageSpanAnswer st params pa).start_log_probs i = -1e32 ∧
      (find_passageSpanAnswer st params pa).end_log_probs i = -1e32 := by
    intro i hi
    simp [find_passageSpanAnswer, replaceMaskedValues, hi]
  constructor
  · intro i hi
    obtain ⟨h1, h2, h3, h4⟩ := key i hi
    exact ⟨h1, h2, h3, h4, le_of_eq (by rw [h3]), le_of_eq (by rw [h4])⟩
  · intro hall i
    obtain ⟨-, -, h3, h4⟩ := key i (hall i)
    exact ⟨h3, h4⟩

/-- Helper: `compare_date_greater_than` blends the two masked input
attentions with weights `greaterWeightOnAttn1` and its complement. -/
theorem compare_date_greater_than_blend {n D : ℕ} (st : DropState n D)
    (a1 a2 : Fin n → ℝ) :
    (compare_date_greater_than st a1 a2).value = fun i =>
      greaterWeightOnAttn1 st a1 a2 * (a1 i * st.maskR i)
      + (1 - greaterWeightOnAttn1 st a1 a2) * (a2 i * st.maskR i) :=
  rfl

/-- Helper: `compare_date_lesser_than` blends the two masked input
attentions with weights `lesserWeightOnAttn1` and its complement. -/
theorem compare_date_lesser_than_blend {n D : ℕ} (st : DropState n D)
    (a1 a2 : Fin n → ℝ) :
    (compare_date_lesser_than st a1 a2).value = fun i =>
      lesserWeightOnAttn1 st a1 a2 * (a1 i * st.maskR i)
      + (1 - lesserWeightOnAttn1 st a1 a2) * (a2 i * st.maskR i) :=
  rfl

/-- C1 (refuted on the code): on the concrete two-date instance `exState`
with attention 1 on the `Date(2002,1,1)` token and attention 2 on the
`Date(2001,1,1)` token, the weight `compare_date_lesser_than` places on
attention-1 — `1 - P(date1<date2)`, since the source passes
`comparison="lesser"` and then still subtracts from 1 — is NOT `1 -` the
weight `compare_date_greater_than` places on attention-1
(`1 - P(date1>date2)`): the two sides are `1 - 1/(e^½+1)²` and
`1 - e^1/(e^½+1)²` respectively. -/
theorem compare_date_lesser_weight_not_complement :
    lesserWeightOnAttn1 exState exAttn1 exAttn2 ≠
      1 - greaterWeightOnAttn1 exState exAttn1 exAttn2 := by
  have hgt1 : dateGt ⟨2002, 1, 1⟩ ⟨2001, 1, 1⟩ = true := by decide
  have hgt2 : dateGt ⟨2001, 1, 1⟩ ⟨2002, 1, 1⟩ = false := by decide
  have hgt3 : dateGt (⟨2002, 1, 1⟩ : Date) ⟨2002, 1, 1⟩ = false := by decide
  have hgt4 : dateGt (⟨2001, 1, 1⟩ : Date) ⟨2001, 1, 1⟩ = false := by decide
  norm_num [lesserWeightOnAttn1, greaterWeightOnAttn1, maskedDateDist,
    compute_date_scores, expected_date_comparison, maskedSoftmax, softmax,
    DropState.gtMat, DropState.ltMat, DropState.maskR, exState, exAttn1, exAttn2,
    Fin.sum_univ_two, Matrix.cons_val_zero, Matrix.cons_val_one, Matrix.head_cons,
    hgt1, hgt2, hgt3, hgt4, decide_eq_true_eq]
  intro h
  have hA : (1:ℝ) < Real.exp (1/2) := Real.one_lt_exp_iff.mpr (by norm_num)
  have hp : (0:ℝ) < Real.exp (1/2) + 1 := by positivity
  field_simp at h
  nlinarith [hA]

/-- C8 witness: on the all-masked two-token instance with the constant
span predictor, the sentinel `-1e32` comes back in the log-probability and
logit sequences at both positions. -/
theorem find_passageSpanAnswer_masking_witness :
    (find_passageSpanAnswer exMaskedState exSpanPredictor ⟨fun _ => 1, 0⟩).start_log_probs 0
        = -1e32 ∧
    (find_passageSpanAnswer exMaskedState exSpanPredictor ⟨fun _ => 1, 0⟩).end_log_probs 1
        = -1e32 ∧
    (find_passageSpanAnswer exMaskedState exSpanPredictor ⟨fun _ => 1, 0⟩).start_logits 0
        = -1e32 := by
  obtain ⟨h1, h2⟩ :=
    find_passageSpanAnswer_masking exMaskedState exSpanPredictor ⟨fun _ => 1, 0⟩
  exact ⟨(h2 (fun i => rfl) 0).1, (h2 (fun i => rfl) 1).2, (h1 0 rfl).1⟩

end DropNmn
